import Mathlib

/-!
Shallow embedding of `generate_instagram_posts.py` (repository
mmacri/InstagramPosts) and verification of its specification claims.

The script's data flows through pandas rows whose cells can be a missing
column, Python `None`, a string, or a number (a blank spreadsheet cell
becomes the float NaN, which in Python is truthy, not a string, and is
detected by `pd.isna`).  Machine floats never enter any branching other
than through `pd.isna` and truthiness, and the only numeric rendering is
Python's `str()` / `int()`, so a numeric cell is embedded as its textual
representations plus its `isna` and truthiness flags.
-/

/-- One pandas cell as the script observes it.
`missing` = the column is absent from the row (`row.get` returns the
default), `pynone` = Python `None` (`row.get` with no default on a missing
column), `str` = a string cell, `num srepr sint isna truthy` = a numeric
cell carrying `str(x)`, `str(int(x))`, `pd.isna(x)` and `bool(x)`. -/
inductive Cell where
  | missing : Cell
  | pynone : Cell
  | str : String → Cell
  | num : String → String → Bool → Bool → Cell
deriving DecidableEq

/-- The float NaN produced by pandas for a blank cell: `str(nan) = "nan"`,
`pd.isna(nan)` is true, and `bool(nan)` is true. `int(nan)` raises, but the
script only calls `int` on cells that passed a `pd.isna` guard, so the
second component is never consulted for NaN. -/
def Cell.nanCell : Cell := Cell.num "nan" "0" true true

/-- Embedding of `row.get(col, default)`: the default is used only when the column is
missing from the row. -/
def Cell.get : Cell → Cell → Cell
  | .missing, d => d
  | .pynone, _ => .pynone
  | .str s, _ => .str s
  | .num a b c t, _ => .num a b c t

/-- Embedding of `row.get(col)` with no default: a missing column yields `None`. -/
def Cell.getNone (c : Cell) : Cell := Cell.get c Cell.pynone

/-- Python truthiness of a cell value (`if x:`). The empty string and
`None` are falsy; NaN is truthy. -/
def Cell.truthy : Cell → Bool
  | .missing => false
  | .pynone => false
  | .str s => !(s = "")
  | .num _ _ _ t => t

/-- Embedding of `isinstance(x, str)`. -/
def Cell.isStr : Cell → Bool
  | .str _ => true
  | _ => false

/-- The string payload of a string cell (only consulted after an
`isinstance(x, str)` guard). -/
def Cell.asStr : Cell → String
  | .str s => s
  | _ => ""

/-- Embedding of `pd.isna(x)`: true for `None` and NaN, false for strings and real
numbers. -/
def Cell.isna : Cell → Bool
  | .missing => false
  | .pynone => true
  | .str _ => false
  | .num _ _ na _ => na

/-- Embedding of `str(x)` / f-string interpolation of a cell value. -/
def Cell.pyStr : Cell → String
  | .missing => ""
  | .pynone => "None"
  | .str s => s
  | .num r _ _ _ => r

/-- Embedding of `str(int(x))` of a cell value (used for `review_count`; the script
guards it with truthiness and `pd.isna` first). For a numeric string cell
this is its integer text. -/
def Cell.pyIntStr : Cell → String
  | .num _ si _ _ => si
  | .str s => s
  | _ => "0"

/-- One spreadsheet row, with the columns the script reads.  Field order:
product_id, title, short_desc, benefits_pipe, affiliate_url,
image_urls_comma, post_type, price, rating, review_count, hashtags_comma,
cta_override, disclosure_override, alt_text_override. -/
structure Row where
  product_id : Cell
  title : Cell
  short_desc : Cell
  benefits_pipe : Cell
  affiliate_url : Cell
  image_urls_comma : Cell
  post_type : Cell
  price : Cell
  rating : Cell
  review_count : Cell
  hashtags_comma : Cell
  cta_override : Cell
  disclosure_override : Cell
  alt_text_override : Cell

/-! ### Python string primitives

The string operations the script uses (`split`, `strip`, `startswith`,
`join`) are embedded structurally over `List Char` so that every
definition evaluates by kernel reduction. -/

/-- ASCII whitespace recognised by Python's `str.strip()` (the script's
inputs are modelled at ASCII granularity). -/
def isPySpace (c : Char) : Bool :=
  c = ' ' || c = '\t' || c = '\n' || c = '\r' || c = '\x0b' || c = '\x0c'

/-- Remove a trailing run of characters satisfying `p`. -/
def dropTrailingWhile (p : Char → Bool) : List Char → List Char
  | [] => []
  | a :: t =>
    let r := dropTrailingWhile p t
    if r.isEmpty && p a then [] else a :: r

/-- Python `s.strip()` (whitespace from both ends). -/
def pyStripWs (s : String) : String :=
  ⟨dropTrailingWhile isPySpace (s.data.dropWhile isPySpace)⟩

/-- Helper of `pySplit`: accumulates the current field in reverse. -/
def splitCharAux (sep : Char) : List Char → List Char → List (List Char)
  | [], acc => [acc.reverse]
  | c :: rest, acc =>
    if c = sep then acc.reverse :: splitCharAux sep rest []
    else splitCharAux sep rest (c :: acc)

/-- Python `s.split(sep)` for a one-character separator: always returns at
least one field, and empty fields are kept. -/
def pySplit (sep : Char) (s : String) : List String :=
  (splitCharAux sep s.data []).map (fun l => ⟨l⟩)

/-- Python `s.startswith(c)` for a one-character needle. -/
def pyStartsWith (c : Char) (s : String) : Bool :=
  match s.data with
  | [] => false
  | a :: _ => a = c

/-- Python `sep.join(xs)`. -/
def joinWith (sep : String) : List String → String
  | [] => ""
  | [x] => x
  | x :: y :: rest => x ++ sep ++ joinWith sep (y :: rest)

/-! ### `slugify` (source lines 66-72)

```python
def slugify(value: str) -> str:
    value = value.lower()
    value = re.sub(r"[^a-z0-9]+", "-", value)
    value = value.strip("-")
    return value or "post"
``` -/

/-- Character class `[a-z0-9]` of the substitution regex. -/
def isAlnumLower (c : Char) : Bool :=
  (97 ≤ c.toNat && c.toNat ≤ 122) || (48 ≤ c.toNat && c.toNat ≤ 57)

/-- ASCII alphanumeric (`[a-zA-Z0-9]`). -/
def isAsciiAlnum (c : Char) : Bool :=
  isAlnumLower c || (65 ≤ c.toNat && c.toNat ≤ 90)

/-- Python `str.lower()`, character by character at ASCII granularity
(`'A'..'Z'` map to `'a'..'z'`; everything else is unchanged). -/
def pyLowerChar (c : Char) : Char :=
  if 65 ≤ c.toNat && c.toNat ≤ 90 then Char.ofNat (c.toNat + 32) else c

/-- Embedding of the substitution `re.sub` with pattern `[^a-z0-9]+` and
replacement hyphen: every maximal run of characters
outside `[a-z0-9]` becomes one hyphen.  The flag records whether the scan
is currently inside such a run (a hyphen has already been emitted for
it). -/
def collapseAux : Bool → List Char → List Char
  | _, [] => []
  | inRun, c :: rest =>
    if isAlnumLower c then c :: collapseAux false rest
    else if inRun then collapseAux true rest
    else '-' :: collapseAux true rest

/-- The regex substitution applied by `slugify`. -/
def collapseNonAlnum (l : List Char) : List Char := collapseAux false l

/-- Python `s.strip('-')`. -/
def stripHyphens (l : List Char) : List Char :=
  dropTrailingWhile (fun d => d = '-') (l.dropWhile (fun d => d = '-'))

/-- The body of `slugify` on the character list of the input. -/
def slugifyData (l : List Char) : List Char :=
  let collapsed := collapseNonAlnum (l.map pyLowerChar)
  let stripped := stripHyphens collapsed
  if stripped.isEmpty then ['p', 'o', 's', 't'] else stripped

/-- Embedding of `slugify` (source lines 66-72). -/
def slugify (s : String) : String := ⟨slugifyData s.data⟩

example : slugify "Hello, World!" = "hello-world" := by decide
example : slugify "  --  " = "post" := by decide
example : slugify "" = "post" := by decide
example : slugify "My Title!" = "my-title" := by decide
example : pySplit ',' "deal,new" = ["deal", "new"] := by decide
example : pyStripWs "  Great tool. Buy now.  " = "Great tool. Buy now." := by decide
example : (pySplit '.' "Great tool. Buy now.").headD "" = "Great tool" := by decide
example : joinWith " " ["#deal", "#new"] = "#deal #new" := by decide

/-! ### `generate_caption` (source lines 80-117)

The Python builds a `lines` list in a fixed order — title line, benefit
bullets, price, rating (with optional review count), call-to-action,
hashtag line, disclosure — and joins it with newlines.  `caption_lines`
is that list; `generate_caption` is the join. -/

/-- The `lines` list assembled by `generate_caption` before the final
the newline join. -/
def caption_lines (row : Row) : List String :=
  let title := Cell.get row.title (Cell.str "")
  let titleLines := if title.truthy then ["Check out " ++ title.pyStr ++ "!"] else []
  let benefits := Cell.get row.benefits_pipe (Cell.str "")
  let benefitLines :=
    if benefits.isStr && benefits.truthy then
      ((pySplit '|' benefits.asStr).map pyStripWs).filterMap
        (fun b => if b = "" then none else some ("• " ++ b))
    else []
  let price := Cell.getNone row.price
  let rating := Cell.getNone row.rating
  let review_count := Cell.getNone row.review_count
  let priceLines :=
    if price.truthy && !price.isna then ["Price: " ++ price.pyStr] else []
  let ratingLines :=
    if rating.truthy && !rating.isna then
      let rc_str :=
        if review_count.truthy && !review_count.isna then
          " (" ++ review_count.pyIntStr ++ " reviews)"
        else ""
      ["Rating: " ++ rating.pyStr ++ "/5" ++ rc_str]
    else []
  let cta_override := Cell.get row.cta_override (Cell.str "")
  let cta :=
    if cta_override.isStr && cta_override.truthy then cta_override.pyStr
    else
      let affiliate_url := Cell.get row.affiliate_url (Cell.str "")
      if affiliate_url.truthy then "Learn more and buy here: " ++ affiliate_url.pyStr
      else ""
  let ctaLines := if cta = "" then [] else [cta]
  let hashtags := Cell.get row.hashtags_comma (Cell.str "")
  let hashtagLines :=
    if hashtags.isStr && hashtags.truthy then
      let parts := ((pySplit ',' hashtags.asStr).map pyStripWs).filter (fun t => !(t = ""))
      if parts.isEmpty then []
      else [joinWith " " (parts.map (fun p => if pyStartsWith '#' p then p else "#" ++ p))]
    else []
  let disclosure := Cell.get row.disclosure_override (Cell.str "")
  let disclosureLine :=
    if disclosure.isStr && disclosure.truthy then disclosure.pyStr
    else "As an Amazon Associate I earn from qualifying purchases."
  titleLines ++ benefitLines ++ priceLines ++ ratingLines ++ ctaLines ++ hashtagLines
    ++ [disclosureLine]

/-- Embedding of `generate_caption` (source lines 80-117). -/
def generate_caption (row : Row) : String := joinWith "\n" (caption_lines row)

/-! ### `generate_alt_text` (source lines 120-130) -/

/-- Embedding of `generate_alt_text` (source lines 120-130). -/
def generate_alt_text (row : Row) : String :=
  let alt_override := Cell.get row.alt_text_override (Cell.str "")
  if alt_override.isStr && alt_override.truthy then alt_override.pyStr
  else
    let titleCell := Cell.get row.title (Cell.str "")
    let title := if titleCell.truthy then titleCell else Cell.str "product"
    let descCell := Cell.get row.short_desc (Cell.str "")
    let desc :=
      if descCell.isStr && descCell.truthy then
        (pySplit '.' (pyStripWs descCell.asStr)).headD ""
      else ""
    pyStripWs ("Image of " ++ title.pyStr ++ ". " ++ desc)

/-! ### `process_product` (source lines 133-178)

The filesystem effects of one row are modelled as an ordered list of
write events.  Each image download attempt is abstracted by an oracle
`ok : Nat → String → Bool` telling whether the `requests.get` /
`Image.open` / `save` pipeline for the URL at that original index
succeeds; any failure is the swallowed `except Exception: continue`.
The one uncaught exception site is `slugify` applied to a non-string
title (Python `AttributeError` on `.lower()`), modelled with `Except`. -/

/-- The metadata record written to `meta.json` (source lines 168-176).
The `title`, `post_type` and `affiliate_url` values are the raw cells. -/
structure Meta where
  product_id : String
  title : Cell
  post_type : Cell
  images : List String
  caption_file : String
  alt_text_file : String
  affiliate_url : Cell
deriving DecidableEq

/-- One filesystem effect of `process_product`, relative to the output
root: directory creation of `{slug}/images`, an image save, a text file
write, or the JSON metadata write. -/
inductive FsWrite where
  | mkdirImages : String → FsWrite
  | imageWrite : String → String → FsWrite
  | textWrite : String → String → String → FsWrite
  | jsonWrite : String → String → Meta → FsWrite
deriving DecidableEq

/-- Image URL list extraction (source lines 140-143): split the
`image_urls_comma` cell on commas, strip each part, drop empties. -/
def rowImageUrls (row : Row) : List String :=
  let imgs_field := Cell.get row.image_urls_comma (Cell.str "")
  if imgs_field.isStr && imgs_field.truthy then
    ((pySplit ',' imgs_field.asStr).map pyStripWs).filter (fun u => !(u = ""))
  else []

/-- The filename used for the image at original index `i` (source line
153: `f"image_{i+1}.jpg"`). -/
def imageName (i : Nat) : String := "image_" ++ Nat.repr (i + 1) ++ ".jpg"

/-- The download loop (source lines 145-158): enumerate the URLs from
index `i`, stop at index 10, on success save `image_{i+1}.jpg` and record
it, on failure continue with the next URL. -/
def downloadImages (ok : Nat → String → Bool) : Nat → List String → List String
  | _, [] => []
  | i, url :: rest =>
    if 10 ≤ i then []
    else if ok i url then imageName i :: downloadImages ok (i + 1) rest
    else downloadImages ok (i + 1) rest

/-- Identifier resolution (source line 134):
`str` of `row.get("product_id") or slugify(row.get("title", "post"))`.
When `product_id` is falsy and the title cell is not a string (e.g. the
NaN of a blank cell), `slugify` raises `AttributeError` on `.lower()`. -/
def resolve_product_id (row : Row) : Except String String :=
  let pid := Cell.getNone row.product_id
  if pid.truthy then Except.ok pid.pyStr
  else
    match Cell.get row.title (Cell.str "post") with
    | Cell.str t => Except.ok (slugify t)
    | _ => Except.error "AttributeError"

/-- The name of the per-product output directory (source lines 135-136:
`product_slug = slugify(product_id)`; `prod_path = out_dir / product_slug`). -/
def product_dir (row : Row) : Except String String :=
  (resolve_product_id row).map slugify

/-- Embedding of `process_product` (source lines 133-178) as its ordered list of
filesystem writes: create the directories, attempt each image download
in order, then write `caption.txt`, `alt_text.txt` and `meta.json`
unconditionally. -/
def process_product (ok : Nat → String → Bool) (row : Row) :
    Except String (List FsWrite) :=
  match resolve_product_id row with
  | Except.error e => Except.error e
  | Except.ok product_id =>
    let product_slug := slugify product_id
    let files := downloadImages ok 0 (rowImageUrls row)
    Except.ok
      ([FsWrite.mkdirImages product_slug]
        ++ files.map (FsWrite.imageWrite product_slug)
        ++ [FsWrite.textWrite product_slug "caption.txt" (generate_caption row),
            FsWrite.textWrite product_slug "alt_text.txt" (generate_alt_text row),
            FsWrite.jsonWrite product_slug "meta.json"
              (Meta.mk product_id (Cell.getNone row.title) (Cell.getNone row.post_type)
                files "caption.txt" "alt_text.txt" (Cell.getNone row.affiliate_url))])

/-- The filenames of the images actually saved among a list of writes. -/
def writtenImages (evs : List FsWrite) : List String :=
  evs.filterMap (fun e =>
    match e with
    | FsWrite.imageWrite _ n => some n
    | _ => none)

/-- The `images` arrays of the metadata records among a list of writes. -/
def metaImageLists (evs : List FsWrite) : List (List String) :=
  evs.filterMap (fun e =>
    match e with
    | FsWrite.jsonWrite _ _ m => some m.images
    | _ => none)

/-- The row of the spec's caption round-trip example: title "Widget",
benefits "Fast|Light", price "$9", rating 4.5, review_count 10,
affiliate_url "http://x", hashtags "deal,new", no overrides.  (Field
order: product_id, title, short_desc, benefits_pipe, affiliate_url,
image_urls_comma, post_type, price, rating, review_count,
hashtags_comma, cta_override, disclosure_override, alt_text_override.) -/
def rowWidget : Row :=
  Row.mk Cell.missing (Cell.str "Widget") Cell.missing (Cell.str "Fast|Light")
    (Cell.str "http://x") Cell.missing Cell.missing (Cell.str "$9")
    (Cell.num "4.5" "4" false true) (Cell.num "10" "10" false true)
    (Cell.str "deal,new") Cell.missing Cell.missing Cell.missing

example :
    caption_lines rowWidget =
      ["Check out Widget!", "• Fast", "• Light", "Price: $9",
       "Rating: 4.5/5 (10 reviews)", "Learn more and buy here: http://x",
       "#deal #new", "As an Amazon Associate I earn from qualifying purchases."] := by
  decide

/-! ### Well-formedness and idempotence of `slugify` -/

/-- Absence of two adjacent hyphens. -/
def noDoubleHyphen : List Char → Bool
  | a :: b :: rest => if a = '-' ∧ b = '-' then false else noDoubleHyphen (b :: rest)
  | _ => true

/-- The last character of a list, if any. -/
def lastChar? : List Char → Option Char
  | [] => none
  | [a] => some a
  | _ :: b :: t => lastChar? (b :: t)

/-- The first character, if any, is not a hyphen. -/
def headNotHyphen (l : List Char) : Bool :=
  match l.head? with
  | none => true
  | some c => !(c = '-')

/-- The last character, if any, is not a hyphen. -/
def lastNotHyphen (l : List Char) : Bool :=
  match lastChar? l with
  | none => true
  | some c => !(c = '-')

lemma alnum_ne_hyphen {c : Char} (h : isAlnumLower c = true) : c ≠ '-' := by
  intro he
  subst he
  exact absurd h (by decide)

lemma pyLowerChar_id {c : Char} (h : isAlnumLower c = true ∨ c = '-') :
    pyLowerChar c = c := by
  rcases h with h | h
  · simp only [isAlnumLower, Bool.or_eq_true, Bool.and_eq_true,
      decide_eq_true_eq] at h
    rw [pyLowerChar, if_neg]
    simp only [Bool.and_eq_true, decide_eq_true_eq, not_and]
    omega
  · subst h
    decide

lemma map_id_of_mem {f : Char → Char} :
    ∀ l : List Char, (∀ c ∈ l, f c = c) → l.map f = l := by
  intro l h
  induction l with
  | nil => rfl
  | cons a t ih =>
    simp only [List.map_cons]
    rw [h a (List.mem_cons_self a t), ih (fun c hc => h c (List.mem_cons_of_mem a hc))]

lemma noDH_tail {a : Char} {l : List Char}
    (h : noDoubleHyphen (a :: l) = true) : noDoubleHyphen l = true := by
  cases l with
  | nil => rfl
  | cons b t =>
    rw [noDoubleHyphen] at h
    split at h
    · exact absurd h (by simp)
    · exact h

lemma noDH_cons_of_left {a : Char} {l : List Char} (ha : a ≠ '-')
    (h : noDoubleHyphen l = true) : noDoubleHyphen (a :: l) = true := by
  cases l with
  | nil => rfl
  | cons b t =>
    rw [noDoubleHyphen, if_neg]
    · exact h
    · rintro ⟨h1, _⟩
      exact ha h1

lemma noDH_cons_of_right {a b : Char} {l : List Char} (hb : b ≠ '-')
    (h : noDoubleHyphen (b :: l) = true) : noDoubleHyphen (a :: b :: l) = true := by
  rw [noDoubleHyphen, if_neg]
  · exact h
  · rintro ⟨_, h2⟩
    exact hb h2

lemma mem_collapseAux {c : Char} :
    ∀ (l : List Char) (b : Bool), c ∈ collapseAux b l →
      isAlnumLower c = true ∨ c = '-' := by
  intro l
  induction l with
  | nil => intro b h; simp [collapseAux] at h
  | cons a t ih =>
    intro b h
    rw [collapseAux] at h
    split at h
    · rcases List.mem_cons.mp h with he | hm
      · exact Or.inl (he ▸ by assumption)
      · exact ih false hm
    · split at h
      · exact ih true h
      · rcases List.mem_cons.mp h with he | hm
        · exact Or.inr he
        · exact ih true hm

lemma head_collapseAux_true {c : Char} :
    ∀ l : List Char, (collapseAux true l).head? = some c →
      isAlnumLower c = true := by
  intro l
  induction l with
  | nil => intro h; simp [collapseAux] at h
  | cons a t ih =>
    intro h
    rw [collapseAux] at h
    split at h
    · simp only [List.head?_cons, Option.some.injEq] at h
      subst h
      assumption
    · split at h
      · exact ih h
      · exact absurd rfl (by assumption)

lemma noDH_collapseAux : ∀ (l : List Char) (b : Bool),
    noDoubleHyphen (collapseAux b l) = true := by
  intro l
  induction l with
  | nil => intro b; rfl
  | cons a t ih =>
    intro b
    rw [collapseAux]
    split
    · exact noDH_cons_of_left (alnum_ne_hyphen (by assumption)) (ih false)
    · split
      · exact ih true
      · cases hx : collapseAux true t with
        | nil => rfl
        | cons d t2 =>
          have hd : isAlnumLower d = true :=
            head_collapseAux_true t (by rw [hx]; rfl)
          exact noDH_cons_of_right (alnum_ne_hyphen hd) (hx ▸ ih true)

lemma collapseAux_fixed :
    ∀ l : List Char, (∀ c ∈ l, isAlnumLower c = true ∨ c = '-') →
      noDoubleHyphen l = true →
      (collapseAux false l = l ∧
        ((∀ c, l.head? = some c → isAlnumLower c = true) → collapseAux true l = l)) := by
  intro l
  induction l with
  | nil => intro _ _; exact ⟨rfl, fun _ => rfl⟩
  | cons a t ih =>
    intro hchar hnd
    have htc : ∀ c ∈ t, isAlnumLower c = true ∨ c = '-' :=
      fun c hc => hchar c (List.mem_cons_of_mem a hc)
    have ih' := ih htc (noDH_tail hnd)
    rcases hchar a (List.mem_cons_self a t) with ha | ha
    · constructor
      · rw [collapseAux, if_pos ha, ih'.1]
      · intro _
        rw [collapseAux, if_pos ha, ih'.1]
    · subst ha
      have htrue : collapseAux true t = t := by
        apply ih'.2
        intro c hc
        cases t with
        | nil => simp at hc
        | cons d t2 =>
          simp only [List.head?_cons, Option.some.injEq] at hc
          subst hc
          rcases htc _ (List.mem_cons_self _ t2) with h | h
          · exact h
          · subst h
            rw [noDoubleHyphen, if_pos ⟨rfl, rfl⟩] at hnd
            exact absurd hnd (by simp)
      constructor
      · rw [collapseAux]
        rw [if_neg (by decide), if_neg (by simp), htrue]
      · intro hhd
        have := hhd '-' rfl
        exact absurd this (by decide)

lemma dropWhile_head_not (p : Char → Bool) :
    ∀ (l : List Char) (c : Char), (l.dropWhile p).head? = some c → p c = false := by
  intro l
  induction l with
  | nil => intro c h; simp [List.dropWhile] at h
  | cons a t ih =>
    intro c h
    rw [List.dropWhile] at h
    cases hp : p a with
    | true => rw [hp] at h; exact ih c h
    | false =>
      rw [hp] at h
      simp only [List.head?_cons, Option.some.injEq] at h
      subst h
      exact hp

lemma mem_dropWhile_sub (p : Char → Bool) :
    ∀ (l : List Char) (c : Char), c ∈ l.dropWhile p → c ∈ l := by
  intro l
  induction l with
  | nil => intro c h; simp [List.dropWhile] at h
  | cons a t ih =>
    intro c h
    rw [List.dropWhile] at h
    cases hp : p a with
    | true => rw [hp] at h; exact List.mem_cons_of_mem a (ih c h)
    | false => rw [hp] at h; exact h

lemma dropWhile_eq_self (p : Char → Bool) (l : List Char)
    (h : ∀ c, l.head? = some c → p c = false) : l.dropWhile p = l := by
  cases l with
  | nil => rfl
  | cons a t =>
    rw [List.dropWhile, h a rfl]

lemma noDH_dropWhile (p : Char → Bool) :
    ∀ l : List Char, noDoubleHyphen l = true →
      noDoubleHyphen (l.dropWhile p) = true := by
  intro l
  induction l with
  | nil => intro _; rfl
  | cons a t ih =>
    intro h
    rw [List.dropWhile]
    cases hp : p a with
    | true => exact ih (noDH_tail h)
    | false => exact h

lemma mem_dropTrailingWhile (p : Char → Bool) :
    ∀ (l : List Char) (c : Char), c ∈ dropTrailingWhile p l → c ∈ l := by
  intro l
  induction l with
  | nil => intro c h; simp [dropTrailingWhile] at h
  | cons a t ih =>
    intro c h
    rw [dropTrailingWhile] at h
    split at h
    · simp at h
    · rcases List.mem_cons.mp h with he | hm
      · exact he ▸ List.mem_cons_self a t
      · exact List.mem_cons_of_mem a (ih c hm)

lemma head_dropTrailingWhile (p : Char → Bool) (l : List Char) (c : Char)
    (h : (dropTrailingWhile p l).head? = some c) : l.head? = some c := by
  cases l with
  | nil => simp [dropTrailingWhile] at h
  | cons a t =>
    rw [dropTrailingWhile] at h
    split at h
    · simp at h
    · simp only [List.head?_cons, Option.some.injEq] at h ⊢
      exact h

lemma lastChar?_dropTrailingWhile (p : Char → Bool) :
    ∀ (l : List Char) (c : Char), lastChar? (dropTrailingWhile p l) = some c →
      p c = false := by
  intro l
  induction l with
  | nil => intro c h; simp [dropTrailingWhile, lastChar?] at h
  | cons a t ih =>
    intro c h
    rw [dropTrailingWhile] at h
    split at h
    · simp [lastChar?] at h
    · rename_i hcond
      cases hr : dropTrailingWhile p t with
      | nil =>
        rw [hr] at h hcond
        simp only [lastChar?, Option.some.injEq] at h
        subst h
        simp only [List.isEmpty_nil, Bool.true_and] at hcond
        exact Bool.eq_false_iff.mpr hcond
      | cons b t2 =>
        rw [hr] at h
        rw [lastChar?] at h
        exact ih c (hr ▸ h)

lemma dropTrailingWhile_eq_self (p : Char → Bool) :
    ∀ l : List Char, (∀ c, lastChar? l = some c → p c = false) →
      dropTrailingWhile p l = l := by
  intro l
  induction l with
  | nil => intro _; rfl
  | cons a t ih =>
    intro h
    cases t with
    | nil =>
      have := h a rfl
      rw [dropTrailingWhile, dropTrailingWhile]
      simp [this]
    | cons b t2 =>
      have ht : dropTrailingWhile p (b :: t2) = b :: t2 := by
        apply ih
        intro c hc
        exact h c (by rw [lastChar?]; exact hc)
      rw [dropTrailingWhile, ht]
      simp

lemma noDH_dropTrailingWhile (p : Char → Bool) :
    ∀ l : List Char, noDoubleHyphen l = true →
      noDoubleHyphen (dropTrailingWhile p l) = true := by
  intro l
  induction l with
  | nil => intro _; rfl
  | cons a t ih =>
    intro h
    rw [dropTrailingWhile]
    split
    · rfl
    · cases hr : dropTrailingWhile p t with
      | nil => rfl
      | cons b t2 =>
        have hb : t.head? = some b := head_dropTrailingWhile p t b (by rw [hr]; rfl)
        have hnd2 : noDoubleHyphen (b :: t2) = true := hr ▸ ih (noDH_tail h)
        cases t with
        | nil => simp at hb
        | cons d t3 =>
          simp only [List.head?_cons, Option.some.injEq] at hb
          subst hb
          rw [noDoubleHyphen]
          split
          · rename_i hcond
            rw [noDoubleHyphen, if_pos hcond] at h
            exact absurd h (by simp)
          · exact hnd2

/-- The shape invariant of every `slugify` output: non-empty, only
lowercase ASCII alphanumerics and hyphens, no two adjacent hyphens, and
no hyphen at either end. -/
def goodSlugData (l : List Char) : Prop :=
  l ≠ [] ∧ (∀ c ∈ l, isAlnumLower c = true ∨ c = '-') ∧
    noDoubleHyphen l = true ∧ headNotHyphen l = true ∧ lastNotHyphen l = true

lemma slugifyData_good (l : List Char) : goodSlugData (slugifyData l) := by
  have hd : slugifyData l =
      if (stripHyphens (collapseNonAlnum (l.map pyLowerChar))).isEmpty then
        ['p', 'o', 's', 't']
      else stripHyphens (collapseNonAlnum (l.map pyLowerChar)) := rfl
  rw [hd]
  cases hs : (stripHyphens (collapseNonAlnum (l.map pyLowerChar))).isEmpty with
  | true =>
    rw [if_pos rfl]
    exact ⟨by simp, by decide, by decide, by decide, by decide⟩
  | false =>
    rw [if_neg (by simp)]
    refine ⟨?_, ?_, ?_, ?_, ?_⟩
    · intro he
      rw [he] at hs
      simp at hs
    · intro c hc
      exact mem_collapseAux _ false
        (mem_dropWhile_sub _ _ c (mem_dropTrailingWhile _ _ c hc))
    · exact noDH_dropTrailingWhile _ _
        (noDH_dropWhile _ _ (noDH_collapseAux _ false))
    · rw [headNotHyphen]
      cases hh : (stripHyphens (collapseNonAlnum (l.map pyLowerChar))).head? with
      | none => rfl
      | some c =>
        have := dropWhile_head_not (fun d => d = '-') _ c
          (head_dropTrailingWhile _ _ c hh)
        simp only [decide_eq_false_iff_not] at this
        simp [this]
    · rw [lastNotHyphen]
      cases hh : lastChar? (stripHyphens (collapseNonAlnum (l.map pyLowerChar))) with
      | none => rfl
      | some c =>
        have := lastChar?_dropTrailingWhile (fun d => d = '-') _ c hh
        simp only [decide_eq_false_iff_not] at this
        simp [this]

lemma slugifyData_fixed (l : List Char) (h : goodSlugData l) :
    slugifyData l = l := by
  obtain ⟨hne, hchar, hnd, hhd, hlast⟩ := h
  have hmap : l.map pyLowerChar = l :=
    map_id_of_mem l (fun c hc => pyLowerChar_id (hchar c hc))
  have hcoll : collapseNonAlnum l = l := (collapseAux_fixed l hchar hnd).1
  have hdw : l.dropWhile (fun d => d = '-') = l := by
    apply dropWhile_eq_self
    intro c hc
    rw [headNotHyphen, hc] at hhd
    simpa using hhd
  have hdt : dropTrailingWhile (fun d => d = '-') l = l := by
    apply dropTrailingWhile_eq_self
    intro c hc
    rw [lastNotHyphen, hc] at hlast
    simpa using hlast
  rw [slugifyData]
  simp only [collapseNonAlnum] at hcoll
  simp only [hmap, collapseNonAlnum, hcoll, stripHyphens, hdw, hdt]
  rw [if_neg]
  simp [hne]

lemma slugifyData_idem (l : List Char) :
    slugifyData (slugifyData l) = slugifyData l :=
  slugifyData_fixed _ (slugifyData_good l)

lemma slugify_fixedpoint (s : String) : slugify (slugify s) = slugify s := by
  rw [slugify, slugify]
  exact congrArg String.mk (slugifyData_idem s.data)

/-- Auxiliary for claim C10: a string with no ASCII alphanumeric
character collapses to a single hyphen run (or nothing), so stripping
leaves the empty string and the `post` fallback fires. -/
lemma collapseAux_all_bad :
    ∀ l : List Char, (∀ c ∈ l, isAlnumLower c = false) →
      collapseAux true l = [] ∧ collapseAux false l = (if l.isEmpty then [] else ['-']) := by
  intro l
  induction l with
  | nil => intro _; exact ⟨rfl, rfl⟩
  | cons a t ih =>
    intro h
    have ha : isAlnumLower a = false := h a (List.mem_cons_self a t)
    have ih' := ih (fun c hc => h c (List.mem_cons_of_mem a hc))
    constructor
    · rw [collapseAux, if_neg (by simp [ha]), if_pos rfl]
      exact ih'.1
    · rw [collapseAux, if_neg (by simp [ha]), if_neg (by simp), ih'.1]
      simp

lemma pyLower_preserves_nonalnum {c : Char} (h : isAsciiAlnum c = false) :
    isAlnumLower (pyLowerChar c) = false := by
  rw [isAsciiAlnum, Bool.or_eq_false_iff] at h
  rw [pyLowerChar, if_neg (by simp [h.2])]
  exact h.1

example : slugifyData "A--b".data = "a-b".data := by decide

/-! ### Characterisation of the download loop -/

lemma downloadImages_eq (ok : Nat → String → Bool) :
    ∀ (l : List String) (j : Nat),
      downloadImages ok j l =
        (((l.take (10 - j)).enumFrom j).filter (fun p => ok p.1 p.2)).map
          (fun p => imageName p.1) := by
  intro l
  induction l with
  | nil => intro j; simp [downloadImages]
  | cons url rest ih =>
    intro j
    rw [downloadImages]
    by_cases hj : 10 ≤ j
    · rw [if_pos hj]
      have h0 : 10 - j = 0 := by omega
      simp [h0]
    · rw [if_neg hj]
      have h1 : 10 - j = (10 - (j + 1)) + 1 := by omega
      rw [h1]
      simp only [List.take_succ_cons, List.enumFrom_cons, List.filter_cons]
      cases hok : ok j url with
      | true => simp [hok, ih (j + 1)]
      | false => simp [hok, ih (j + 1)]

lemma downloadImages_from_zero (ok : Nat → String → Bool) (urls : List String) :
    downloadImages ok 0 urls =
      (((urls.take 10).enum).filter (fun p => ok p.1 p.2)).map
        (fun p => imageName p.1) := by
  rw [downloadImages_eq ok urls 0]
  rfl

lemma writtenImages_append (a b : List FsWrite) :
    writtenImages (a ++ b) = writtenImages a ++ writtenImages b :=
  List.filterMap_append a b _

lemma writtenImages_of_map (d : String) (files : List String) :
    writtenImages (files.map (FsWrite.imageWrite d)) = files := by
  induction files with
  | nil => rfl
  | cons f t ih =>
    simp only [List.map_cons]
    rw [writtenImages, List.filterMap_cons]
    simp only []
    rw [writtenImages] at ih
    rw [ih]

lemma metaImageLists_append (a b : List FsWrite) :
    metaImageLists (a ++ b) = metaImageLists a ++ metaImageLists b :=
  List.filterMap_append a b _

lemma metaImageLists_of_map (d : String) (files : List String) :
    metaImageLists (files.map (FsWrite.imageWrite d)) = [] := by
  induction files with
  | nil => rfl
  | cons f t ih =>
    simp only [List.map_cons]
    rw [metaImageLists, List.filterMap_cons]
    simp only []
    rw [metaImageLists] at ih
    rw [ih]

/-! ### Claims C9, C10: `slugify` -/

/-- C9: `slugify` is idempotent — for every string `s`,
`slugify (slugify s) = slugify s`. -/
theorem claim9_slugify_idempotent (s : String) :
    slugify (slugify s) = slugify s :=
  slugify_fixedpoint s

/-- C10: every `slugify` output is a non-empty string of lowercase ASCII
alphanumerics and hyphens, with no leading or trailing hyphen and no two
consecutive hyphens; an input with no ASCII alphanumeric character (the
empty string included) yields the literal `"post"`. -/
theorem claim10_slugify_wellformed (s : String) :
    slugify s ≠ "" ∧
    (∀ c ∈ (slugify s).data, isAlnumLower c = true ∨ c = '-') ∧
    noDoubleHyphen (slugify s).data = true ∧
    headNotHyphen (slugify s).data = true ∧
    lastNotHyphen (slugify s).data = true ∧
    ((∀ c ∈ s.data, isAsciiAlnum c = false) → slugify s = "post") := by
  obtain ⟨hne, hchar, hnd, hhd, hlast⟩ := slugifyData_good s.data
  have hdata : (slugify s).data = slugifyData s.data := rfl
  refine ⟨?_, ?_, ?_, ?_, ?_, ?_⟩
  · intro he
    apply hne
    have h2 := congrArg String.data he
    rw [hdata] at h2
    exact h2
  · rw [hdata]; exact hchar
  · rw [hdata]; exact hnd
  · rw [hdata]; exact hhd
  · rw [hdata]; exact hlast
  · intro hno
    have hbad : ∀ c ∈ s.data.map pyLowerChar, isAlnumLower c = false := by
      intro c hc
      obtain ⟨d, hd, rfl⟩ := List.mem_map.mp hc
      exact pyLower_preserves_nonalnum (hno d hd)
    have hc2 := (collapseAux_all_bad _ hbad).2
    have hpost : slugifyData s.data = ['p', 'o', 's', 't'] := by
      have hd2 : slugifyData s.data =
          if (stripHyphens (collapseNonAlnum (s.data.map pyLowerChar))).isEmpty then
            ['p', 'o', 's', 't']
          else stripHyphens (collapseNonAlnum (s.data.map pyLowerChar)) := rfl
      rw [hd2, collapseNonAlnum, hc2]
      cases hie : (s.data.map pyLowerChar).isEmpty with
      | true => decide
      | false => decide
    rw [slugify, hpost]

/-- Witness for C10 at a concrete input: a string with no alphanumeric
character maps to `"post"`. -/
theorem claim10_slugify_wellformed_witness : slugify "?!" = "post" :=
  (claim10_slugify_wellformed "?!").2.2.2.2.2 (by decide)

/-! ### Claim C1: image filename numbering -/

example : imageName 1 = "image_2.jpg" := by decide

/-- Download oracle of the C1 counterexample: the URL "a" (index 0)
fails to fetch or decode, the URL "b" (index 1) succeeds. -/
def okC1 : Nat → String → Bool := fun _ u => u = "b"

/-- C1 is false on the code: with two URLs of which only the second
succeeds, K = 1 download succeeds but the loop saves `image_2.jpg`
(named by original index, line 153: `f"image_{i+1}.jpg"`), not the
contiguous `image_1.jpg` the claim requires. -/
theorem claim1_counterexample :
    downloadImages okC1 0 ["a", "b"] = ["image_2.jpg"] ∧
    ((["a", "b"].take 10).enum.filter (fun p => okC1 p.1 p.2)).length = 1 ∧
    downloadImages okC1 0 ["a", "b"] ≠ (List.range 1).map (fun k => imageName k) := by
  refine ⟨by decide, by decide, by decide⟩

/-- C1 amended: the saved filenames are `image_{i+1}.jpg` for exactly the
original indices `i` (among the first ten URLs) whose fetch+decode+save
succeeded, in increasing original order; indices of failed URLs leave
gaps in the numbering rather than being renumbered. -/
theorem claim1_positional_naming (ok : Nat → String → Bool) (urls : List String) :
    downloadImages ok 0 urls =
      ((urls.take 10).enum.filter (fun p => ok p.1 p.2)).map
        (fun p => imageName p.1) :=
  downloadImages_from_zero ok urls

/-! ### Claim C4: caption round-trip -/

/-- C4: the Widget row's caption lines are exactly the eight specified
lines in order, and the caption is their newline join. -/
theorem claim4_caption_roundtrip :
    caption_lines rowWidget =
      ["Check out Widget!", "• Fast", "• Light", "Price: $9",
       "Rating: 4.5/5 (10 reviews)", "Learn more and buy here: http://x",
       "#deal #new", "As an Amazon Associate I earn from qualifying purchases."] ∧
    generate_caption rowWidget =
      "Check out Widget!\n• Fast\n• Light\nPrice: $9\nRating: 4.5/5 (10 reviews)\nLearn more and buy here: http://x\n#deal #new\nAs an Amazon Associate I earn from qualifying purchases." := by
  refine ⟨by decide, by decide⟩

/-! ### Claim C5: identifier resolution and output directory name -/

/-- Row whose `product_id` cell is the NaN of a blank spreadsheet cell
and whose title is the non-empty string "My Widget". -/
def rowC5nan : Row :=
  Row.mk Cell.nanCell (Cell.str "My Widget") Cell.missing Cell.missing Cell.missing
    Cell.missing Cell.missing Cell.missing Cell.missing Cell.missing Cell.missing
    Cell.missing Cell.missing Cell.missing

/-- Row whose `product_id` and `title` cells are both blank (NaN). -/
def rowC5nanBoth : Row :=
  Row.mk Cell.nanCell Cell.nanCell Cell.missing Cell.missing Cell.missing
    Cell.missing Cell.missing Cell.missing Cell.missing Cell.missing Cell.missing
    Cell.missing Cell.missing Cell.missing

/-- Row with an empty-string `product_id` and a blank (NaN) title. -/
def rowC5crash : Row :=
  Row.mk (Cell.str "") Cell.nanCell Cell.missing Cell.missing Cell.missing
    Cell.missing Cell.missing Cell.missing Cell.missing Cell.missing Cell.missing
    Cell.missing Cell.missing Cell.missing

/-- C5 is false as stated, on the blank-cell records it ranges over: a
blank `product_id` cell is NaN, which is truthy, so line 134 takes
`str(nan) = "nan"` as the identifier instead of falling back to the
title — the record with an empty (blank) identifier and non-empty title
"My Widget" gets the directory `"nan"`, not the slugified title
`"my-widget"`; with identifier and title both blank the directory is
again `"nan"`, not `"post"`; and an empty-string identifier with a blank
title raises an uncaught `AttributeError` (`slugify` of a float) instead
of producing `"post"`. -/
theorem claim5_counterexample :
    (product_dir rowC5nan = Except.ok "nan" ∧ slugify "My Widget" ≠ "nan") ∧
    product_dir rowC5nanBoth = Except.ok "nan" ∧
    product_dir rowC5crash = Except.error "AttributeError" :=
  ⟨⟨rfl, by decide⟩, rfl, rfl⟩

/-- C5 amended: with "empty identifier" restricted to a falsy value
(missing column, `None`, or the empty string — not the NaN of a blank
cell), the directory name is the slugified title for a non-empty string
title and `"post"` when the title is the empty string or missing; a
truthy `product_id` — any non-empty string or number — is used, its
textual value slugified.  But a blank (NaN) identifier cell is truthy:
it yields the directory `"nan"` regardless of the title; and a falsy
identifier combined with a blank (NaN) title raises an uncaught
`AttributeError` instead of producing a directory. -/
theorem claim5_identifier_resolution (row : Row) :
    ((Cell.getNone row.product_id).truthy = false →
      ∀ t : String, row.title = Cell.str t → t ≠ "" →
        product_dir row = Except.ok (slugify t)) ∧
    ((Cell.getNone row.product_id).truthy = false →
      (row.title = Cell.str "" ∨ row.title = Cell.missing) →
        product_dir row = Except.ok "post") ∧
    ((Cell.getNone row.product_id).truthy = true →
      product_dir row = Except.ok (slugify (Cell.getNone row.product_id).pyStr)) ∧
    (row.product_id = Cell.nanCell → product_dir row = Except.ok "nan") ∧
    ((Cell.getNone row.product_id).truthy = false → row.title = Cell.nanCell →
      product_dir row = Except.error "AttributeError") := by
  refine ⟨?_, ?_, ?_, ?_, ?_⟩
  · intro hf t ht _
    rw [product_dir, resolve_product_id, if_neg (by simp [hf]), ht]
    show Except.map slugify (Except.ok (slugify t)) = Except.ok (slugify t)
    rw [Except.map]
    exact congrArg Except.ok (slugify_fixedpoint t)
  · intro hf ht
    rcases ht with ht | ht
    · rw [product_dir, resolve_product_id, if_neg (by simp [hf]), ht]
      rfl
    · rw [product_dir, resolve_product_id, if_neg (by simp [hf]), ht]
      rfl
  · intro hp
    rw [product_dir, resolve_product_id, if_pos hp]
    rfl
  · intro h4
    rw [product_dir, resolve_product_id, h4]
    rfl
  · intro hf h5
    rw [product_dir, resolve_product_id, if_neg (by simp [hf]), h5]
    rfl

/-- Row with falsy identifier and non-empty title. -/
def rowC5a : Row :=
  Row.mk Cell.missing (Cell.str "My Title!") Cell.missing Cell.missing Cell.missing
    Cell.missing Cell.missing Cell.missing Cell.missing Cell.missing Cell.missing
    Cell.missing Cell.missing Cell.missing

/-- Row with empty-string identifier and empty-string title. -/
def rowC5b : Row :=
  Row.mk (Cell.str "") (Cell.str "") Cell.missing Cell.missing Cell.missing
    Cell.missing Cell.missing Cell.missing Cell.missing Cell.missing Cell.missing
    Cell.missing Cell.missing Cell.missing

/-- Row with a non-empty identifier. -/
def rowC5c : Row :=
  Row.mk (Cell.str "ABC") Cell.missing Cell.missing Cell.missing Cell.missing
    Cell.missing Cell.missing Cell.missing Cell.missing Cell.missing Cell.missing
    Cell.missing Cell.missing Cell.missing

/-- Witness for the amended C5 at concrete rows: slugified title, the
`"post"` fallback, a slugified explicit identifier, the `"nan"` directory
of a blank identifier, and the abort on a falsy identifier with a blank
title. -/
theorem claim5_identifier_resolution_witness :
    product_dir rowC5a = Except.ok "my-title" ∧
    product_dir rowC5b = Except.ok "post" ∧
    product_dir rowC5c = Except.ok "abc" ∧
    product_dir rowC5nanBoth = Except.ok "nan" ∧
    product_dir rowC5crash = Except.error "AttributeError" := by
  refine ⟨?_, ?_, ?_, ?_, ?_⟩
  · have h := (claim5_identifier_resolution rowC5a).1 (by decide) "My Title!" rfl
      (by decide)
    rw [h]
    rfl
  · exact (claim5_identifier_resolution rowC5b).2.1 (by decide) (Or.inl rfl)
  · have h := (claim5_identifier_resolution rowC5c).2.2.1 (by decide)
    rw [h]
    rfl
  · exact (claim5_identifier_resolution rowC5nanBoth).2.2.2.1 rfl
  · exact (claim5_identifier_resolution rowC5crash).2.2.2.2 (by decide) rfl

/-! ### Claims C3, C8: `process_product` write events -/

/-- C3: whenever `process_product` completes, the list of image
filenames in the `meta.json` record equals the list of image files
actually saved during the run — failures are omitted from both, and no
name is recorded without a corresponding save. -/
theorem claim3_meta_matches_written (ok : Nat → String → Bool) (row : Row)
    (evs : List FsWrite) (h : process_product ok row = Except.ok evs) :
    writtenImages evs = (metaImageLists evs).flatten := by
  unfold process_product at h
  split at h
  · simp at h
  · simp only [Except.ok.injEq] at h
    subst h
    rw [writtenImages_append, writtenImages_append, writtenImages_of_map]
    rw [metaImageLists_append, metaImageLists_append, metaImageLists_of_map]
    simp [writtenImages, metaImageLists, List.filterMap_cons]

/-- C8: whenever `process_product` completes, (a) `caption.txt`,
`alt_text.txt` and `meta.json` are all written with the composed
contents, whatever the download oracle did, and (b) the saved images are
exactly the successful attempts among the first ten URLs — an individual
failure is skipped without stopping the later URLs or the row. -/
theorem claim8_row_outputs_survive_image_failures (ok : Nat → String → Bool)
    (row : Row) (evs : List FsWrite) (h : process_product ok row = Except.ok evs) :
    (∃ d : String,
      FsWrite.textWrite d "caption.txt" (generate_caption row) ∈ evs ∧
      FsWrite.textWrite d "alt_text.txt" (generate_alt_text row) ∈ evs ∧
      ∃ m : Meta, FsWrite.jsonWrite d "meta.json" m ∈ evs) ∧
    writtenImages evs =
      (((rowImageUrls row).take 10).enum.filter (fun p => ok p.1 p.2)).map
        (fun p => imageName p.1) := by
  unfold process_product at h
  split at h
  · simp at h
  · rename_i pid hpid
    simp only [Except.ok.injEq] at h
    subst h
    constructor
    · refine ⟨slugify pid, ?_, ?_, ?_⟩
      · simp
      · simp
      · exact ⟨Meta.mk pid (Cell.getNone row.title) (Cell.getNone row.post_type)
          (downloadImages ok 0 (rowImageUrls row)) "caption.txt" "alt_text.txt"
          (Cell.getNone row.affiliate_url), by simp⟩
    · rw [writtenImages_append, writtenImages_append, writtenImages_of_map]
      have h1 : writtenImages [FsWrite.mkdirImages (slugify pid)] = [] := rfl
      rw [h1]
      have h2 : ∀ m : Meta,
          writtenImages
            [FsWrite.textWrite (slugify pid) "caption.txt" (generate_caption row),
             FsWrite.textWrite (slugify pid) "alt_text.txt" (generate_alt_text row),
             FsWrite.jsonWrite (slugify pid) "meta.json" m] = [] := fun _ => rfl
      rw [h2]
      rw [List.nil_append, List.append_nil]
      exact downloadImages_from_zero ok (rowImageUrls row)

/-- Download oracle for the C3 witness: index 0 fails, index 1 succeeds. -/
def okC3 : Nat → String → Bool := fun i _ => i = 1

/-- Row for the C3 witness: identifier "p1", two image URLs. -/
def rowC3 : Row :=
  Row.mk (Cell.str "p1") Cell.missing Cell.missing Cell.missing Cell.missing
    (Cell.str "a,b") Cell.missing Cell.missing Cell.missing Cell.missing
    Cell.missing Cell.missing Cell.missing Cell.missing

/-- The write events `process_product` emits for `rowC3` under `okC3`. -/
def evsC3 : List FsWrite :=
  [FsWrite.mkdirImages "p1",
   FsWrite.imageWrite "p1" "image_2.jpg",
   FsWrite.textWrite "p1" "caption.txt"
     "As an Amazon Associate I earn from qualifying purchases.",
   FsWrite.textWrite "p1" "alt_text.txt" "Image of product.",
   FsWrite.jsonWrite "p1" "meta.json"
     (Meta.mk "p1" Cell.pynone Cell.pynone ["image_2.jpg"] "caption.txt"
       "alt_text.txt" Cell.pynone)]

/-- Witness for C3 at a concrete row with one failed and one successful
download. -/
theorem claim3_meta_matches_written_witness :
    writtenImages evsC3 = (metaImageLists evsC3).flatten :=
  claim3_meta_matches_written okC3 rowC3 evsC3 rfl

/-- Download oracle for the C8 witness: every download fails. -/
def okC8 : Nat → String → Bool := fun _ _ => false

/-- Row for the C8 witness: identifier "p2", two image URLs. -/
def rowC8 : Row :=
  Row.mk (Cell.str "p2") Cell.missing Cell.missing Cell.missing Cell.missing
    (Cell.str "a,b") Cell.missing Cell.missing Cell.missing Cell.missing
    Cell.missing Cell.missing Cell.missing Cell.missing

/-- The write events `process_product` emits for `rowC8` when every
download fails: no images, but the three text/metadata writes happen. -/
def evsC8 : List FsWrite :=
  [FsWrite.mkdirImages "p2",
   FsWrite.textWrite "p2" "caption.txt"
     "As an Amazon Associate I earn from qualifying purchases.",
   FsWrite.textWrite "p2" "alt_text.txt" "Image of product.",
   FsWrite.jsonWrite "p2" "meta.json"
     (Meta.mk "p2" Cell.pynone Cell.pynone [] "caption.txt" "alt_text.txt"
       Cell.pynone)]

/-- Witness for C8 at a concrete row on which every download fails: the
image list is empty yet the row completed (the caption, alt-text and
metadata writes are present in `evsC8` by construction). -/
theorem claim8_row_outputs_survive_image_failures_witness :
    writtenImages evsC8 = [] := by
  have h := (claim8_row_outputs_survive_image_failures okC8 rowC8 evsC8 rfl).2
  rw [h]
  decide

/-! ### Claim C6: the call-to-action line -/

lemma string_append_ne_empty (a b : String) (h : a.data ≠ []) : a ++ b ≠ "" := by
  intro he
  apply h
  have h2 := congrArg String.data he
  rw [String.data_append] at h2
  exact (List.append_eq_nil.mp h2).1

/-- The caption lines before the call-to-action slot (title, benefits,
price, rating — source lines 83-99). -/
def caption_lines_before_cta (row : Row) : List String :=
  let title := Cell.get row.title (Cell.str "")
  let titleLines := if title.truthy then ["Check out " ++ title.pyStr ++ "!"] else []
  let benefits := Cell.get row.benefits_pipe (Cell.str "")
  let benefitLines :=
    if benefits.isStr && benefits.truthy then
      ((pySplit '|' benefits.asStr).map pyStripWs).filterMap
        (fun b => if b = "" then none else some ("• " ++ b))
    else []
  let price := Cell.getNone row.price
  let rating := Cell.getNone row.rating
  let review_count := Cell.getNone row.review_count
  let priceLines :=
    if price.truthy && !price.isna then ["Price: " ++ price.pyStr] else []
  let ratingLines :=
    if rating.truthy && !rating.isna then
      let rc_str :=
        if review_count.truthy && !review_count.isna then
          " (" ++ review_count.pyIntStr ++ " reviews)"
        else ""
      ["Rating: " ++ rating.pyStr ++ "/5" ++ rc_str]
    else []
  titleLines ++ benefitLines ++ priceLines ++ ratingLines

/-- The call-to-action slot stated the claim's way: the override verbatim
when it is a non-empty string; otherwise the synthesized affiliate line
when the affiliate cell is truthy; otherwise nothing. -/
def cta_slot (row : Row) : List String :=
  let cta_override := Cell.get row.cta_override (Cell.str "")
  if cta_override.isStr && cta_override.truthy then [cta_override.pyStr]
  else
    let affiliate_url := Cell.get row.affiliate_url (Cell.str "")
    if affiliate_url.truthy then ["Learn more and buy here: " ++ affiliate_url.pyStr]
    else []

/-- The caption lines after the call-to-action slot (hashtags and the
disclosure — source lines 108-116). -/
def caption_lines_after_cta (row : Row) : List String :=
  let hashtags := Cell.get row.hashtags_comma (Cell.str "")
  let hashtagLines :=
    if hashtags.isStr && hashtags.truthy then
      let parts := ((pySplit ',' hashtags.asStr).map pyStripWs).filter (fun t => !(t = ""))
      if parts.isEmpty then []
      else [joinWith " " (parts.map (fun p => if pyStartsWith '#' p then p else "#" ++ p))]
    else []
  let disclosure := Cell.get row.disclosure_override (Cell.str "")
  let disclosureLine :=
    if disclosure.isStr && disclosure.truthy then disclosure.pyStr
    else "As an Amazon Associate I earn from qualifying purchases."
  hashtagLines ++ [disclosureLine]

lemma pyStr_ne_empty_of_str_truthy {c : Cell} (h : (c.isStr && c.truthy) = true) :
    c.pyStr ≠ "" := by
  cases c with
  | str s =>
    simp only [Cell.truthy, Bool.and_eq_true] at h
    simpa [Cell.pyStr] using h.2
  | missing => simp [Cell.isStr] at h
  | pynone => simp [Cell.isStr] at h
  | num a b c t => simp [Cell.isStr] at h

lemma cta_lines_eq_slot (o aff : Cell) :
    (if (if o.isStr && o.truthy then o.pyStr
         else if aff.truthy then "Learn more and buy here: " ++ aff.pyStr else "") = ""
     then ([] : List String)
     else [if o.isStr && o.truthy then o.pyStr
           else if aff.truthy then "Learn more and buy here: " ++ aff.pyStr else ""]) =
    (if o.isStr && o.truthy then [o.pyStr]
     else if aff.truthy then ["Learn more and buy here: " ++ aff.pyStr] else []) := by
  by_cases h1 : (o.isStr && o.truthy) = true
  · simp only [if_pos h1]
    exact if_neg (pyStr_ne_empty_of_str_truthy h1)
  · simp only [if_neg h1]
    by_cases h2 : aff.truthy = true
    · simp only [if_pos h2]
      exact if_neg (string_append_ne_empty _ _ (by decide))
    · simp only [if_neg h2]
      simp

/-- C6 amended: the caption is always the pre-CTA lines, then the CTA
slot, then the post-CTA lines, where the slot is the override verbatim
when a non-empty string override is supplied (whatever `affiliate_url`
holds), otherwise the synthesized `"Learn more and buy here: ..."` line
when the affiliate cell is truthy — which includes the NaN of a blank
cell, rendered as `"nan"` — and empty otherwise. -/
theorem claim6_cta_slot (row : Row) :
    caption_lines row =
      caption_lines_before_cta row ++ cta_slot row ++ caption_lines_after_cta row := by
  rw [caption_lines, caption_lines_before_cta, cta_slot, caption_lines_after_cta]
  simp only [List.append_assoc]
  rw [cta_lines_eq_slot (Cell.get row.cta_override (Cell.str ""))
      (Cell.get row.affiliate_url (Cell.str ""))]

/-- Row with no override and a NaN affiliate cell. -/
def rowC6 : Row :=
  Row.mk Cell.missing Cell.missing Cell.missing Cell.missing Cell.nanCell
    Cell.missing Cell.missing Cell.missing Cell.missing Cell.missing
    Cell.missing Cell.missing Cell.missing Cell.missing

/-- C6 is false as stated: on a row whose `affiliate_url` cell is the NaN
of a blank spreadsheet cell — no affiliate URL exists — the synthesized
line is nevertheless emitted, with NaN rendered as the text `"nan"`,
instead of being omitted. -/
theorem claim6_counterexample :
    caption_lines rowC6 =
      ["Learn more and buy here: nan",
       "As an Amazon Associate I earn from qualifying purchases."] := by
  decide

/-! ### Claim C7: alt text -/

/-- The first sentence of a description: the text up to the first period
of the whitespace-stripped string. -/
def firstSentence (d : String) : String := (pySplit '.' (pyStripWs d)).headD ""

/-- The composed (non-override) alt text, stated the claim's way:
`"Image of {title}."` followed by a space and the first sentence of the
short description when one exists, the whole trimmed; the title text is
the cell's rendering when the cell is truthy and the literal `"product"`
otherwise. -/
def alt_compose (row : Row) : String :=
  let t := Cell.get row.title (Cell.str "")
  let titleText := if t.truthy then t.pyStr else "product"
  let descText :=
    match Cell.get row.short_desc (Cell.str "") with
    | Cell.str d => if d = "" then "" else firstSentence d
    | _ => ""
  pyStripWs ("Image of " ++ titleText ++ ". " ++ descText)

/-- The claim's (amended) contract for the alt text: the override
verbatim when it is a non-empty string, the composed text otherwise. -/
def alt_text_amended_spec (row : Row) : String :=
  match Cell.get row.alt_text_override (Cell.str "") with
  | Cell.str s => if s = "" then alt_compose row else s
  | _ => alt_compose row

lemma desc_eq (c : Cell) :
    (if c.isStr && c.truthy then (pySplit '.' (pyStripWs c.asStr)).headD "" else "") =
    (match c with
     | Cell.str d => if d = "" then "" else firstSentence d
     | _ => "") := by
  cases c with
  | str d =>
    by_cases hd : d = ""
    · subst hd
      simp [Cell.isStr, Cell.truthy]
    · simp [Cell.isStr, Cell.truthy, hd, Cell.asStr, firstSentence]
  | missing => simp [Cell.isStr]
  | pynone => simp [Cell.isStr]
  | num a b c t => simp [Cell.isStr]

lemma generate_alt_text_else (row : Row) :
    (let titleCell := Cell.get row.title (Cell.str "")
     let title := if titleCell.truthy then titleCell else Cell.str "product"
     let descCell := Cell.get row.short_desc (Cell.str "")
     let desc :=
       if descCell.isStr && descCell.truthy then
         (pySplit '.' (pyStripWs descCell.asStr)).headD ""
       else ""
     pyStripWs ("Image of " ++ title.pyStr ++ ". " ++ desc)) = alt_compose row := by
  rw [alt_compose]
  simp only [apply_ite Cell.pyStr]
  rw [desc_eq]
  rfl

/-- C7 amended: the alt text is the override verbatim when a non-empty
string override is supplied; otherwise `"Image of {title}."` followed by
a space and the first sentence of the short description (when one
exists), trimmed — where the title falls back to the literal `"product"`
only when the title cell is falsy (missing column or empty string); a
NaN title cell is truthy and is rendered as the text `"nan"`.  On the
spec's example row the result is `"Image of Widget. Great tool"`. -/
theorem claim7_alt_text_amended :
    (∀ row : Row, generate_alt_text row = alt_text_amended_spec row) ∧
    generate_alt_text
      (Row.mk Cell.missing (Cell.str "Widget") (Cell.str "Great tool. Buy now.")
        Cell.missing Cell.missing Cell.missing Cell.missing Cell.missing
        Cell.missing Cell.missing Cell.missing Cell.missing Cell.missing
        Cell.missing) = "Image of Widget. Great tool" := by
  constructor
  · intro row
    rw [generate_alt_text, alt_text_amended_spec]
    cases ho : Cell.get row.alt_text_override (Cell.str "") with
    | str s =>
      by_cases hs : s = ""
      · subst hs
        rw [if_neg (by simp [Cell.isStr, Cell.truthy])]
        exact generate_alt_text_else row
      · rw [if_pos (by simp [Cell.isStr, Cell.truthy, hs])]
        simp [Cell.pyStr, hs]
    | missing =>
      rw [if_neg (by simp [Cell.isStr])]
      exact generate_alt_text_else row
    | pynone =>
      rw [if_neg (by simp [Cell.isStr])]
      exact generate_alt_text_else row
    | num a b c t =>
      rw [if_neg (by simp [Cell.isStr])]
      exact generate_alt_text_else row
  · decide

/-- Row whose `title` cell is the NaN of a blank spreadsheet cell, with
no alt-text override and no description. -/
def rowC7 : Row :=
  Row.mk Cell.missing Cell.nanCell Cell.missing Cell.missing Cell.missing
    Cell.missing Cell.missing Cell.missing Cell.missing Cell.missing
    Cell.missing Cell.missing Cell.missing Cell.missing

/-- C7 is false as stated: a blank (NaN) title cell is an absent title,
yet the alt text renders it as the text `"nan"` instead of falling back
to the literal `"product"`. -/
theorem claim7_counterexample :
    generate_alt_text rowC7 = "Image of nan." ∧
    generate_alt_text rowC7 ≠ "Image of product." := by
  refine ⟨by decide, by decide⟩

/-! ### Claim C2: missing-value sentinels -/

/-- Row whose `title` cell is the NaN of a blank spreadsheet cell. -/
def rowC2 : Row :=
  Row.mk Cell.missing Cell.nanCell Cell.missing Cell.missing Cell.missing
    Cell.missing Cell.missing Cell.missing Cell.missing Cell.missing
    Cell.missing Cell.missing Cell.missing Cell.missing

/-- C2 is false as stated: the title has no `isinstance`/`pd.isna` guard
(line 83-85), so the NaN arising from a blank title cell is truthy and is
interpolated into the caption as the text `"nan"`. -/
theorem claim2_counterexample :
    caption_lines rowC2 =
      ["Check out nan!",
       "As an Amazon Associate I earn from qualifying purchases."] := by
  decide

/-- C2 amended: the fields read through an `isinstance(_, str)` guard
(benefits, hashtags, the three overrides, the short description) and the
fields read through a `pd.isna` guard (price, rating, review_count)
resolve a NaN cell to the same output as an absent column — NaN never
leaks through them.  Only `title` and `affiliate_url` lack such guards
(and the raw cells stored in `meta.json`), so only they render NaN as
the text `"nan"`.  Each conjunct replaces one guarded field of an
otherwise arbitrary row by NaN and by an absent column and equates the
results. -/
theorem claim2_nan_guarded_fields :
    (∀ c1 c2 c3 c5 c6 c7 c8 c9 c10 c11 c12 c13 c14 : Cell,
      caption_lines (Row.mk c1 c2 c3 Cell.nanCell c5 c6 c7 c8 c9 c10 c11 c12 c13 c14) =
        caption_lines (Row.mk c1 c2 c3 Cell.missing c5 c6 c7 c8 c9 c10 c11 c12 c13 c14)) ∧
    (∀ c1 c2 c3 c4 c5 c6 c7 c9 c10 c11 c12 c13 c14 : Cell,
      caption_lines (Row.mk c1 c2 c3 c4 c5 c6 c7 Cell.nanCell c9 c10 c11 c12 c13 c14) =
        caption_lines (Row.mk c1 c2 c3 c4 c5 c6 c7 Cell.missing c9 c10 c11 c12 c13 c14)) ∧
    (∀ c1 c2 c3 c4 c5 c6 c7 c8 c10 c11 c12 c13 c14 : Cell,
      caption_lines (Row.mk c1 c2 c3 c4 c5 c6 c7 c8 Cell.nanCell c10 c11 c12 c13 c14) =
        caption_lines (Row.mk c1 c2 c3 c4 c5 c6 c7 c8 Cell.missing c10 c11 c12 c13 c14)) ∧
    (∀ c1 c2 c3 c4 c5 c6 c7 c8 c9 c11 c12 c13 c14 : Cell,
      caption_lines (Row.mk c1 c2 c3 c4 c5 c6 c7 c8 c9 Cell.nanCell c11 c12 c13 c14) =
        caption_lines (Row.mk c1 c2 c3 c4 c5 c6 c7 c8 c9 Cell.missing c11 c12 c13 c14)) ∧
    (∀ c1 c2 c3 c4 c5 c6 c7 c8 c9 c10 c12 c13 c14 : Cell,
      caption_lines (Row.mk c1 c2 c3 c4 c5 c6 c7 c8 c9 c10 Cell.nanCell c12 c13 c14) =
        caption_lines (Row.mk c1 c2 c3 c4 c5 c6 c7 c8 c9 c10 Cell.missing c12 c13 c14)) ∧
    (∀ c1 c2 c3 c4 c5 c6 c7 c8 c9 c10 c11 c13 c14 : Cell,
      caption_lines (Row.mk c1 c2 c3 c4 c5 c6 c7 c8 c9 c10 c11 Cell.nanCell c13 c14) =
        caption_lines (Row.mk c1 c2 c3 c4 c5 c6 c7 c8 c9 c10 c11 Cell.missing c13 c14)) ∧
    (∀ c1 c2 c3 c4 c5 c6 c7 c8 c9 c10 c11 c12 c14 : Cell,
      caption_lines (Row.mk c1 c2 c3 c4 c5 c6 c7 c8 c9 c10 c11 c12 Cell.nanCell c14) =
        caption_lines (Row.mk c1 c2 c3 c4 c5 c6 c7 c8 c9 c10 c11 c12 Cell.missing c14)) ∧
    (∀ c1 c2 c4 c5 c6 c7 c8 c9 c10 c11 c12 c13 c14 : Cell,
      generate_alt_text (Row.mk c1 c2 Cell.nanCell c4 c5 c6 c7 c8 c9 c10 c11 c12 c13 c14) =
        generate_alt_text (Row.mk c1 c2 Cell.missing c4 c5 c6 c7 c8 c9 c10 c11 c12 c13 c14)) ∧
    (∀ c1 c2 c3 c4 c5 c6 c7 c8 c9 c10 c11 c12 c13 : Cell,
      generate_alt_text (Row.mk c1 c2 c3 c4 c5 c6 c7 c8 c9 c10 c11 c12 c13 Cell.nanCell) =
        generate_alt_text (Row.mk c1 c2 c3 c4 c5 c6 c7 c8 c9 c10 c11 c12 c13 Cell.missing)) := by
  refine ⟨?_, ?_, ?_, ?_, ?_, ?_, ?_, ?_, ?_⟩ <;>
    · intros
      simp [caption_lines, generate_alt_text, Cell.get, Cell.getNone, Cell.isStr,
        Cell.truthy, Cell.isna, Cell.pyStr, Cell.pyIntStr, Cell.nanCell]
